import Mathlib

/-!
Verification of the Vertesia agent CLI conversation driver
(src: commands/conversation.ts — transformStoreLinks, formatMessage,
startInteractiveConversation) against its design specification.

The TypeScript source is shallowly embedded: pure string processing is
translated to functions over List Char / String, console output becomes an
explicit event trace, and the interactive loop becomes a recursive function
consuming a script of backend behaviors.  The external SDK primitives
(executeAsync, streamMessages, sendSignal) and the line prompt are not part
of the repository; their contracts are modelled from the specification and
marked as such.
-/

namespace VertesiaCli

/-- Message kinds (AgentMessageType from the external common package).
The named constructors are the kinds the source compares against;
`unknown` stands for any other value of the open string-valued enum. -/
inductive MsgType where
  | question
  | error
  | complete
  | idle
  | requestInput
  | agent
  | unknown (tag : String)
deriving DecidableEq, Repr

/-- Terminal colors used by the source via chalk (cosmetic). -/
inductive Color where
  | gray | green | red | yellow | blue | cyan
deriving DecidableEq, Repr

/-- A colored piece of terminal text (chalk.<color>(text) in the source). -/
structure Styled where
  color : Color
  text : String
deriving DecidableEq, Repr

/-! ## LinkRewriter: transformStoreLinks -/

/-- The character class `[a-zA-Z0-9-]` of the source regexes.
`Char.isAlpha`/`Char.isDigit` are ASCII-only, matching the regex class. -/
def isIdChar (c : Char) : Bool :=
  c.isAlpha || c.isDigit || c = '-'

/-- Strip an exact literal from the front of a character list
(the literal part `store:` / `collection:` of the source regexes). -/
def stripLit : List Char → List Char → Option (List Char)
  | [], s => some s
  | _ :: _, [] => none
  | p :: ps, c :: cs => if c = p then stripLit ps cs else none

/-- Try to match `lit` followed by a maximal nonempty run of id characters
at the head of `s` (the greedy `lit([a-zA-Z0-9-]+)` match of the source
regexes).  Returns the captured id and the remainder after the match. -/
def tryToken (lit : List Char) (s : List Char) : Option (List Char × List Char) :=
  match stripLit lit s with
  | none => none
  | some rest =>
    let ident := rest.takeWhile isIdChar
    if ident.isEmpty then none else some (ident, rest.dropWhile isIdChar)

/-- Global left-to-right, non-overlapping regex replacement
(String.prototype.replace with a /g regex in the source): at each position
try the token; on a match emit the replacement and continue after it, else
keep the character and move on.  `fuel` bounds the recursion; every step
consumes at least one input character, so `fuel = s.length` never runs out
(see `replaceTokF_fuel_irrelevant`). -/
def replaceTokF (lit : List Char) (mk : List Char → List Char) :
    Nat → List Char → List Char
  | _, [] => []
  | 0, s => s
  | fuel + 1, c :: cs =>
    match tryToken lit (c :: cs) with
    | some (ident, rest) => mk ident ++ replaceTokF lit mk fuel rest
    | none => c :: replaceTokF lit mk fuel cs

/-- Replace every occurrence of the token in `s`. -/
def replaceTok (lit : List Char) (mk : List Char → List Char) (s : List Char) :
    List Char :=
  replaceTokF lit mk s.length s

/-- The site → UI-domain switch of transformStoreLinks; the site is
process.env.VERTESIA_ENVIRONMENT (absent = none). -/
def uiDomain : Option String → String
  | some "api-preview.vertesia.io" => "preview.cloud.vertesia.io"
  | some "api-staging.vertesia.io" => "staging.cloud.vertesia.io"
  | _ => "cloud.vertesia.io"

/-- Replacement for a `store:<id>` match:
https://<uiDomain>/store/objects/<id>. -/
def storeReplacement (d : String) (ident : List Char) : List Char :=
  ("https://" ++ d ++ "/store/objects/").toList ++ ident

/-- Replacement for a `collection:<id>` match:
https://<uiDomain>/store/collections/<id>. -/
def collectionReplacement (d : String) (ident : List Char) : List Char :=
  ("https://" ++ d ++ "/store/collections/").toList ++ ident

/-- transformStoreLinks from the source: replace all `store:<id>` matches,
then all `collection:<id>` matches over the store-rewritten text. -/
def transformStoreLinks (site : Option String) (message : String) : String :=
  let d := uiDomain site
  let s1 := replaceTok "store:".toList (storeReplacement d) message.toList
  let s2 := replaceTok "collection:".toList (collectionReplacement d) s1
  String.mk s2

/-- Does the token occur anywhere in `s`? (Whether the source regex would
find at least one match.) -/
def hasTok (lit : List Char) : List Char → Bool
  | [] => false
  | c :: cs => (tryToken lit (c :: cs)).isSome || hasTok lit cs

/-! ## MessageRenderer: formatMessage -/

/-- The `switch (type)` of formatMessage choosing the colored label.
QUESTION, ERROR, COMPLETE and IDLE have explicit cases; everything else
falls to the default branch chalk.blue("Agent:"). -/
def messageLabel : MsgType → Styled
  | .question => ⟨.green, "User:"⟩
  | .error => ⟨.red, "Error:"⟩
  | .complete => ⟨.green, "Complete:"⟩
  | .idle => ⟨.yellow, "Idle:"⟩
  | _ => ⟨.blue, "Agent:"⟩

/-- One console.log of formatMessage:
either the header line, a markdown-rendered body (console.log(marked(t)),
carrying the text handed to the markdown renderer), or a raw body
(console.log(message + newline)). -/
inductive OutEvent where
  | header (timestampText : String) (label : Styled)
  | markdownText (t : String)
  | rawText (t : String)
deriving DecidableEq, Repr

/-- The text of the header line, the source template
gray(date) ++ " - " ++ typeColor with the colors projected away. -/
def headerText (timestampText : String) (label : Styled) : String :=
  timestampText ++ " - " ++ label.text

/-- formatMessage from the source.  `locale` stands for the external
Date.toLocaleString formatting of the millisecond timestamp.  The body is
markdown-rendered after link rewriting unless the kind is QUESTION, IDLE
or ERROR, which are printed verbatim with a trailing blank line. -/
def formatMessage (site : Option String) (locale : Nat → String)
    (ty : MsgType) (message : String) (timestamp : Nat) : List OutEvent :=
  [OutEvent.header (locale timestamp) (messageLabel ty),
   if ty ≠ MsgType.question ∧ ty ≠ MsgType.idle ∧ ty ≠ MsgType.error then
     OutEvent.markdownText (transformStoreLinks site message)
   else
     OutEvent.rawText (message ++ "\n")]

/-! ## ConversationDriver: startInteractiveConversation -/

/-- A message item delivered by the stream; `message` is the possibly
absent text field (undefined = none). -/
structure AgentMessage where
  type : MsgType
  message : Option String
  timestamp : Nat
deriving DecidableEq, Repr

/-- JavaScript truthiness of the optional string field
(the `if (item.message)` guard): present and nonempty. -/
def msgTruthy : Option String → Bool
  | none => false
  | some s => decide (s ≠ "")

/-- The early-exit decision of the streaming callback: exitFn("input") for
IDLE or REQUEST_INPUT, exitFn("done") for COMPLETE, no exit otherwise. -/
def exitReason : MsgType → Option String
  | .idle => some "input"
  | .requestInput => some "input"
  | .complete => some "done"
  | _ => none

/-- The body of the streaming callback for one delivered item: render the
message through formatMessage when its text is truthy, then decide whether
to end the call. -/
def handleItem (site : Option String) (locale : Nat → String)
    (m : AgentMessage) : List OutEvent × Option String :=
  (if msgTruthy m.message then
     formatMessage site locale m.type (m.message.getD "") m.timestamp
   else [],
   exitReason m.type)

/-- Run the callback over the delivered items in order; once an item calls
exitFn, the call ends with that reason and later items are not delivered.
Returns the rendered output and the exit reason, if any. -/
def runCallback (site : Option String) (locale : Nat → String) :
    List AgentMessage → List OutEvent × Option String
  | [] => ([], none)
  | m :: ms =>
    let h := handleItem site locale m
    match h.2 with
    | some r => (h.1, some r)
    | none =>
      let t := runCallback site locale ms
      (h.1 ++ t.1, t.2)

/-- Modelled from the spec: how one streamMessages call ends when the
callback never calls exitFn.  The SDK client is external to the
repository; per the specification the call either resolves with no
distinguished reason (stream exhausted) or rejects, and a rejected value
is either an Error instance or not (the `error instanceof Error` test of
the source catch). -/
inductive StreamTail where
  | natural
  | rejectError
  | rejectNonError
deriving DecidableEq, Repr

/-- The scripted behavior of one streamMessages call: the items it
delivers and how it ends if no item triggers exitFn. -/
structure CallScript where
  items : List AgentMessage
  tail : StreamTail
deriving DecidableEq, Repr

/-- Outcome of one streamMessages call as observed by the driver. -/
inductive CallResult where
  | resolved (reason : Option String)
  | rejectedError
  | rejectedOther
deriving DecidableEq, Repr

/-- Modelled from the spec: executing one streamMessages call.  The SDK
streamMessages is external to the repository; per the specification the
call invokes the callback per delivered item, ends early with the reason
passed to exitFn, and otherwise ends per its tail behavior. -/
def execCall (site : Option String) (locale : Nat → String)
    (c : CallScript) : List OutEvent × CallResult :=
  let r := runCallback site locale c.items
  match r.2 with
  | some reason => (r.1, .resolved (some reason))
  | none =>
    match c.tail with
    | .natural => (r.1, .resolved none)
    | .rejectError => (r.1, .rejectedError)
    | .rejectNonError => (r.1, .rejectedOther)

/-- Observable actions of the driver: renderer output, console.log status
lines, console.error reports, a streamMessages call recording the cursor
passed and the run id, prompt interactions, and sendSignal calls. -/
inductive DriverEvent where
  | out (e : OutEvent)
  | info (line : String)
  | errorReport (context : String)
  | callStream (runId : String) (since : Nat)
  | promptRejected (raw : String)
  | promptAccepted (text : String)
  | signal (workflowId : String) (runId : String) (name : String)
      (payloadMessage : String)
deriving DecidableEq, Repr

/-- Removing leading and trailing whitespace from a line (the trim of
the prompt contract; executable over the character list). -/
def trimChars (s : String) : String :=
  String.mk
    (((s.toList.dropWhile Char.isWhitespace).reverse.dropWhile
        Char.isWhitespace).reverse)

/-- Modelled from the spec: the interactive line prompt (inquirer is
external to the repository).  Per the specification it re-prompts while
the input is empty or whitespace-only and returns a trimmed, validated
line; the argument lists the successive raw lines the user types.
Returns the prompt events and the accepted text (none when the scripted
attempts run out, truncating the model). -/
def promptLoop : List String → List DriverEvent × Option String
  | [] => ([], none)
  | s :: ss =>
    if trimChars s = "" then
      let t := promptLoop ss
      (DriverEvent.promptRejected s :: t.1, t.2)
    else ([DriverEvent.promptAccepted (trimChars s)], some (trimChars s))

/-- The scripted environment of one loop iteration: the streaming call's
behavior, the value Date.now() yields after the call, and the user's
prompt attempts if input is requested. -/
structure IterScript where
  call : CallScript
  now : Nat
  inputs : List String
deriving DecidableEq, Repr

/-- The `while (conversationActive)` loop of startInteractiveConversation,
as a recursive function over the scripted iterations.  Returns the event
trace and the final cursor value.  On a rejection with an Error instance
the source logs and returns from the whole function before the cursor
update (so no completion notice); on any other rejection the error is
swallowed, the cursor is updated and the loop exits normally with the
completion notice; on a resolved call the cursor is updated, then reason
"input" prompts, signals and continues, while any other reason exits the
loop with the completion notice.  An exhausted script truncates the
trace. -/
def driverLoop (site : Option String) (locale : Nat → String)
    (wf rid : String) : Nat → List IterScript → List DriverEvent × Nat
  | since, [] => ([], since)
  | since, it :: rest =>
    let ec := execCall site locale it.call
    let pre := DriverEvent.callStream rid since :: ec.1.map DriverEvent.out
    match ec.2 with
    | .rejectedError =>
      (pre ++ [DriverEvent.errorReport "Error while streaming messages:"], since)
    | .rejectedOther =>
      (pre ++ [DriverEvent.info "Conversation completed"], it.now)
    | .resolved reason =>
      if reason = some "input" then
        let pr := promptLoop it.inputs
        match pr.2 with
        | some text =>
          let nxt := driverLoop site locale wf rid it.now rest
          (pre ++ pr.1 ++ (DriverEvent.signal wf rid "UserInput" text :: nxt.1),
           nxt.2)
        | none => (pre ++ pr.1, it.now)
      else
        (pre ++ [DriverEvent.info "Conversation completed"], it.now)

/-- The run handle returned by executeAsync. -/
structure RunHandle where
  workflowId : String
  runId : String
deriving DecidableEq, Repr

/-- Whether the initial executeAsync call resolves with a run handle or
rejects (handled by the outer catch of the source). -/
inductive StartResult where
  | ok (run : RunHandle)
  | failed
deriving DecidableEq, Repr

/-- The initial cyan status line of the source (template literal,
including the double space when not interactive). -/
def startingLine (task agentType : String) (interactive : Bool) : String :=
  "Starting " ++ agentType ++ " " ++
    (if interactive then "in interactive mode" else "") ++
    " with task: " ++ task

/-- startInteractiveConversation from the source: print the starting
line; run executeAsync; on rejection the outer catch reports the error
and sets process.exitCode = 1; on success print the run id and enter the
loop with the cursor at 0.  Returns the event trace and the final
process exit code (0 = default success; the loop itself never reaches
the outer catch: its only failure path returns after reporting). -/
def startInteractiveConversation (site : Option String)
    (locale : Nat → String) (task agentType : String) (interactive : Bool)
    (start : StartResult) (script : List IterScript) :
    List DriverEvent × Nat :=
  let intro := DriverEvent.info (startingLine task agentType interactive)
  match start with
  | .failed => ([intro, DriverEvent.errorReport "Error during conversation:"], 1)
  | .ok run =>
    let body := driverLoop site locale run.workflowId run.runId 0 script
    (intro :: DriverEvent.info ("Run ID: " ++ run.runId) :: body.1, 0)

/-- The cursor value recorded by a callStream event, if any. -/
def sinceOfEvent : DriverEvent → Option Nat
  | .callStream _ n => some n
  | _ => none

/-- The successive cursor values passed to streamMessages along a trace. -/
def sincesPassed (tr : List DriverEvent) : List Nat :=
  tr.filterMap sinceOfEvent

/-- Is the event a prompt interaction or a sendSignal call? -/
def isPromptOrSignal : DriverEvent → Bool
  | .promptRejected _ => true
  | .promptAccepted _ => true
  | .signal _ _ _ _ => true
  | _ => false

/-- Is the event a console.error report? -/
def isErrorReport : DriverEvent → Bool
  | .errorReport _ => true
  | _ => false

/-- Is the event a sendSignal call? -/
def isSignalEvent : DriverEvent → Bool
  | .signal _ _ _ _ => true
  | _ => false

/-! ## Helper lemmas -/

theorem replaceTokF_of_not_hasTok (lit : List Char) (mk : List Char → List Char) :
    ∀ (f : Nat) (s : List Char), hasTok lit s = false → replaceTokF lit mk f s = s := by
  intro f
  induction f with
  | zero =>
    intro s _
    cases s <;> rfl
  | succ f ih =>
    intro s h
    cases s with
    | nil => rfl
    | cons c cs =>
      simp only [hasTok, Bool.or_eq_false_iff] at h
      obtain ⟨h1, h2⟩ := h
      cases htok : tryToken lit (c :: cs) with
      | none =>
        simp only [replaceTokF, htok]
        rw [ih cs h2]
      | some v =>
        rw [htok] at h1
        simp at h1

theorem replaceTok_of_not_hasTok (lit : List Char) (mk : List Char → List Char)
    (s : List Char) (h : hasTok lit s = false) : replaceTok lit mk s = s :=
  replaceTokF_of_not_hasTok lit mk s.length s h

theorem stripLit_length :
    ∀ (lit s rest : List Char), stripLit lit s = some rest →
      rest.length + lit.length = s.length := by
  intro lit
  induction lit with
  | nil =>
    intro s rest h
    simp only [stripLit, Option.some_inj] at h
    subst h
    rfl
  | cons p ps ih =>
    intro s rest h
    cases s with
    | nil => simp [stripLit] at h
    | cons c cs =>
      simp only [stripLit] at h
      split at h
      · have := ih cs rest h
        simp only [List.length_cons]
        omega
      · simp at h

/-- A successful token match consumes at least one character. -/
theorem tryToken_rest_length :
    ∀ (lit s ident rest : List Char), tryToken lit s = some (ident, rest) →
      rest.length < s.length := by
  intro lit s ident rest h
  unfold tryToken at h
  cases hst : stripLit lit s with
  | none =>
    rw [hst] at h
    simp at h
  | some r0 =>
    rw [hst] at h
    simp only [] at h
    split at h
    · simp at h
    · simp only [Option.some_inj, Prod.mk.injEq] at h
      obtain ⟨hident, hrest⟩ := h
      have hlen := stripLit_length lit s r0 hst
      have hsplit : (r0.takeWhile isIdChar).length +
          (r0.dropWhile isIdChar).length = r0.length := by
        rw [← List.length_append, List.takeWhile_append_dropWhile]
      have hpos : 0 < (r0.takeWhile isIdChar).length := by
        cases hq : r0.takeWhile isIdChar with
        | nil =>
          rename_i hid
          rw [hq] at hid
          simp at hid
        | cons a as => simp [hq]
      subst hrest
      omega

/-- Any fuel at least the input length computes the same replacement:
the fuel-based definition is total on its intended domain. -/
theorem replaceTokF_fuel_irrelevant (lit : List Char) (mk : List Char → List Char) :
    ∀ (f : Nat) (s : List Char) (g : Nat), s.length ≤ f → s.length ≤ g →
      replaceTokF lit mk f s = replaceTokF lit mk g s := by
  intro f
  induction f with
  | zero =>
    intro s g hf _
    have hs : s = [] := List.length_eq_zero.mp (Nat.le_zero.mp hf)
    subst hs
    cases g <;> rfl
  | succ f ih =>
    intro s g hf hg
    cases s with
    | nil => cases g <;> rfl
    | cons c cs =>
      cases g with
      | zero =>
        simp at hg
      | succ g' =>
        simp only [replaceTokF]
        cases htok : tryToken lit (c :: cs) with
        | none =>
          show c :: replaceTokF lit mk f cs = c :: replaceTokF lit mk g' cs
          simp only [List.length_cons] at hf hg
          rw [ih cs g' (by omega) (by omega)]
        | some v =>
          obtain ⟨ident, rest⟩ := v
          have hlt := tryToken_rest_length lit (c :: cs) ident rest htok
          show mk ident ++ replaceTokF lit mk f rest =
            mk ident ++ replaceTokF lit mk g' rest
          simp only [List.length_cons] at hf hg hlt
          rw [ih rest g' (by omega) (by omega)]

theorem replaceTokF_eq_replaceTok (lit : List Char) (mk : List Char → List Char)
    (f : Nat) (s : List Char) (h : s.length ≤ f) :
    replaceTokF lit mk f s = replaceTok lit mk s :=
  replaceTokF_fuel_irrelevant lit mk f s s.length h (Nat.le_refl _)

/-- A string with no store and no collection token is left unchanged. -/
theorem transformStoreLinks_of_no_tok (site : Option String) (s : String)
    (h1 : hasTok "store:".toList s.toList = false)
    (h2 : hasTok "collection:".toList s.toList = false) :
    transformStoreLinks site s = s := by
  show String.mk (replaceTok "collection:".toList (collectionReplacement (uiDomain site))
      (replaceTok "store:".toList (storeReplacement (uiDomain site)) s.toList)) = s
  rw [replaceTok_of_not_hasTok _ _ _ h1, replaceTok_of_not_hasTok _ _ _ h2]
  rfl

theorem driverLoop_nil (site : Option String) (locale : Nat → String)
    (wf rid : String) (since : Nat) :
    driverLoop site locale wf rid since [] = ([], since) := rfl

theorem driverLoop_rejectedError (site : Option String) (locale : Nat → String)
    (wf rid : String) (since : Nat) (it : IterScript) (rest : List IterScript)
    (outs : List OutEvent)
    (h : execCall site locale it.call = (outs, .rejectedError)) :
    driverLoop site locale wf rid since (it :: rest) =
      (DriverEvent.callStream rid since :: outs.map DriverEvent.out ++
        [DriverEvent.errorReport "Error while streaming messages:"], since) := by
  simp [driverLoop, h]

theorem driverLoop_rejectedOther (site : Option String) (locale : Nat → String)
    (wf rid : String) (since : Nat) (it : IterScript) (rest : List IterScript)
    (outs : List OutEvent)
    (h : execCall site locale it.call = (outs, .rejectedOther)) :
    driverLoop site locale wf rid since (it :: rest) =
      (DriverEvent.callStream rid since :: outs.map DriverEvent.out ++
        [DriverEvent.info "Conversation completed"], it.now) := by
  simp [driverLoop, h]

theorem driverLoop_resolved_noninput (site : Option String) (locale : Nat → String)
    (wf rid : String) (since : Nat) (it : IterScript) (rest : List IterScript)
    (outs : List OutEvent) (r : Option String)
    (h : execCall site locale it.call = (outs, .resolved r))
    (hr : r ≠ some "input") :
    driverLoop site locale wf rid since (it :: rest) =
      (DriverEvent.callStream rid since :: outs.map DriverEvent.out ++
        [DriverEvent.info "Conversation completed"], it.now) := by
  simp [driverLoop, h, hr]

theorem driverLoop_input (site : Option String) (locale : Nat → String)
    (wf rid : String) (since : Nat) (it : IterScript) (rest : List IterScript)
    (outs : List OutEvent) (pevs : List DriverEvent) (text : String)
    (h : execCall site locale it.call = (outs, .resolved (some "input")))
    (hp : promptLoop it.inputs = (pevs, some text)) :
    driverLoop site locale wf rid since (it :: rest) =
      (DriverEvent.callStream rid since :: outs.map DriverEvent.out ++ pevs ++
        DriverEvent.signal wf rid "UserInput" text ::
          (driverLoop site locale wf rid it.now rest).1,
       (driverLoop site locale wf rid it.now rest).2) := by
  simp [driverLoop, h, hp]

theorem driverLoop_input_exhausted (site : Option String) (locale : Nat → String)
    (wf rid : String) (since : Nat) (it : IterScript) (rest : List IterScript)
    (outs : List OutEvent) (pevs : List DriverEvent)
    (h : execCall site locale it.call = (outs, .resolved (some "input")))
    (hp : promptLoop it.inputs = (pevs, none)) :
    driverLoop site locale wf rid since (it :: rest) =
      (DriverEvent.callStream rid since :: outs.map DriverEvent.out ++ pevs,
       it.now) := by
  simp [driverLoop, h, hp]

theorem sincesPassed_map_out (outs : List OutEvent) :
    sincesPassed (outs.map DriverEvent.out) = [] := by
  induction outs with
  | nil => rfl
  | cons o os ih =>
    simp [sincesPassed, sinceOfEvent] at ih ⊢

theorem sincesPassed_append (l1 l2 : List DriverEvent) :
    sincesPassed (l1 ++ l2) = sincesPassed l1 ++ sincesPassed l2 := by
  simp [sincesPassed]

theorem sincesPassed_callStream_cons (rid : String) (n : Nat) (l : List DriverEvent) :
    sincesPassed (DriverEvent.callStream rid n :: l) = n :: sincesPassed l := by
  simp [sincesPassed, sinceOfEvent]

theorem sincesPassed_errorReport_cons (s : String) (l : List DriverEvent) :
    sincesPassed (DriverEvent.errorReport s :: l) = sincesPassed l := by
  simp [sincesPassed, sinceOfEvent]

theorem sincesPassed_info_cons (s : String) (l : List DriverEvent) :
    sincesPassed (DriverEvent.info s :: l) = sincesPassed l := by
  simp [sincesPassed, sinceOfEvent]

theorem sincesPassed_signal_cons (a b c d : String) (l : List DriverEvent) :
    sincesPassed (DriverEvent.signal a b c d :: l) = sincesPassed l := by
  simp [sincesPassed, sinceOfEvent]

theorem sincesPassed_empty : sincesPassed [] = [] := rfl

theorem sincesPassed_promptLoop (inputs : List String) :
    sincesPassed (promptLoop inputs).1 = [] := by
  induction inputs with
  | nil => rfl
  | cons s ss ih =>
    by_cases hs : trimChars s = ""
    · simp [promptLoop, hs, sincesPassed, sinceOfEvent] at ih ⊢
      exact ih
    · simp [promptLoop, hs, sincesPassed, sinceOfEvent]

/-- When the prompt accepts a line: the accepted text is the nonempty trim
of one of the typed lines, and every prompt event is either the single
acceptance or a rejection of a whitespace-only line. -/
theorem promptLoop_accepted :
    ∀ (inputs : List String) (pevs : List DriverEvent) (text : String),
      promptLoop inputs = (pevs, some text) →
      text ≠ "" ∧ (∃ raw ∈ inputs, trimChars raw = text) ∧
      (∀ e ∈ pevs, e = DriverEvent.promptAccepted text ∨
        ∃ raw, e = DriverEvent.promptRejected raw ∧ trimChars raw = "") := by
  intro inputs
  induction inputs with
  | nil =>
    intro pevs text h
    simp [promptLoop] at h
  | cons s ss ih =>
    intro pevs text h
    by_cases hs : trimChars s = ""
    · simp only [promptLoop, hs, if_pos] at h
      obtain ⟨h1, h2⟩ := Prod.mk.injEq .. ▸ h
      have hrec : promptLoop ss = ((promptLoop ss).1, some text) := by
        rw [← h2]
      obtain ⟨t1, t2, t3⟩ := ih (promptLoop ss).1 text hrec
      subst h1
      refine ⟨t1, ?_, ?_⟩
      · obtain ⟨raw, hraw, htrim⟩ := t2
        exact ⟨raw, List.mem_cons_of_mem s hraw, htrim⟩
      · intro e he
        rcases List.mem_cons.mp he with rfl | he
        · exact Or.inr ⟨s, rfl, hs⟩
        · exact t3 e he
    · simp only [promptLoop, hs, if_neg] at h
      obtain ⟨h1, h2⟩ := Prod.mk.injEq .. ▸ h
      rw [Option.some_inj] at h2
      subst h1
      subst h2
      refine ⟨hs, ⟨s, List.mem_cons_self s ss, rfl⟩, ?_⟩
      intro e he
      rw [List.mem_singleton] at he
      subst he
      exact Or.inl rfl

/-- The cursor recorded by the first streaming call of a nonempty script
is exactly the cursor the loop was entered with. -/
theorem sincesPassed_driverLoop_head (site : Option String) (locale : Nat → String)
    (wf rid : String) (since : Nat) (it : IterScript) (rest : List IterScript) :
    (sincesPassed (driverLoop site locale wf rid since (it :: rest)).1).head? =
      some since := by
  rcases hec : execCall site locale it.call with ⟨outs, res⟩
  cases res with
  | rejectedError =>
    rw [driverLoop_rejectedError site locale wf rid since it rest outs hec]
    simp [sincesPassed_callStream_cons]
  | rejectedOther =>
    rw [driverLoop_rejectedOther site locale wf rid since it rest outs hec]
    simp [sincesPassed_callStream_cons]
  | resolved r =>
    by_cases hr : r = some "input"
    · subst hr
      rcases hp : promptLoop it.inputs with ⟨pevs, ans⟩
      cases ans with
      | none =>
        rw [driverLoop_input_exhausted site locale wf rid since it rest outs pevs hec hp]
        simp [sincesPassed_callStream_cons]
      | some text =>
        rw [driverLoop_input site locale wf rid since it rest outs pevs text hec hp]
        simp [sincesPassed_callStream_cons]
    · rw [driverLoop_resolved_noninput site locale wf rid since it rest outs r hec hr]
      simp [sincesPassed_callStream_cons]

/-- Monotonicity of the cursors passed to successive streaming calls,
for a non-decreasing clock and a starting cursor below the first clock
reading. -/
theorem sincesPassed_driverLoop_chain (site : Option String) (locale : Nat → String)
    (wf rid : String) :
    ∀ (script : List IterScript) (since : Nat),
      List.Chain' (· ≤ ·) (script.map IterScript.now) →
      (∀ it0, script.head? = some it0 → since ≤ it0.now) →
      List.Chain' (· ≤ ·)
        (sincesPassed (driverLoop site locale wf rid since script).1) := by
  intro script
  induction script with
  | nil =>
    intro since _ _
    simp [driverLoop_nil, sincesPassed_empty]
  | cons it rest ih =>
    intro since hchain hhead
    rcases hec : execCall site locale it.call with ⟨outs, res⟩
    cases res with
    | rejectedError =>
      rw [driverLoop_rejectedError site locale wf rid since it rest outs hec]
      simp [sincesPassed_callStream_cons, sincesPassed_append, sincesPassed_map_out,
        sincesPassed_errorReport_cons, sincesPassed_empty]
    | rejectedOther =>
      rw [driverLoop_rejectedOther site locale wf rid since it rest outs hec]
      simp [sincesPassed_callStream_cons, sincesPassed_append, sincesPassed_map_out,
        sincesPassed_info_cons, sincesPassed_empty]
    | resolved r =>
      by_cases hr : r = some "input"
      · subst hr
        rcases hp : promptLoop it.inputs with ⟨pevs, ans⟩
        have hpev : sincesPassed pevs = [] := by
          have h0 := sincesPassed_promptLoop it.inputs
          rw [hp] at h0
          exact h0
        cases ans with
        | none =>
          rw [driverLoop_input_exhausted site locale wf rid since it rest outs pevs hec hp]
          simp [sincesPassed_callStream_cons, sincesPassed_append, sincesPassed_map_out,
            hpev, sincesPassed_empty]
        | some text =>
          rw [driverLoop_input site locale wf rid since it rest outs pevs text hec hp]
          simp only [sincesPassed_callStream_cons, sincesPassed_append,
            sincesPassed_map_out, hpev, sincesPassed_signal_cons, List.nil_append,
            List.append_nil, List.singleton_append]
          rw [List.chain'_cons']
          constructor
          · intro b hb
            cases rest with
            | nil =>
              rw [driverLoop_nil, sincesPassed_empty] at hb
              simp at hb
            | cons it2 r2 =>
              rw [sincesPassed_driverLoop_head site locale wf rid it.now it2 r2] at hb
              rw [Option.mem_def, Option.some_inj] at hb
              subst hb
              exact hhead it rfl
          · apply ih it.now
            · exact (List.chain'_cons'.mp hchain).2
            · intro it2 h2
              apply (List.chain'_cons'.mp hchain).1
              rw [List.head?_map, h2]
              rfl
      · rw [driverLoop_resolved_noninput site locale wf rid since it rest outs r hec hr]
        simp [sincesPassed_callStream_cons, sincesPassed_append, sincesPassed_map_out,
          sincesPassed_info_cons, sincesPassed_empty]

/-! ## Claims -/

/-- Claim C4: the link rewriter maps the site to the UI domain by the
fixed switch (preview and staging explicitly, everything else to the
default cloud.vertesia.io), leaves text without store/collection tokens
unchanged, and rewrites the specification's example to the expected URLs
with no site set. -/
theorem transformStoreLinks_behavior :
    uiDomain (some "api-preview.vertesia.io") = "preview.cloud.vertesia.io" ∧
    uiDomain (some "api-staging.vertesia.io") = "staging.cloud.vertesia.io" ∧
    (∀ site : Option String, site ≠ some "api-preview.vertesia.io" →
      site ≠ some "api-staging.vertesia.io" → uiDomain site = "cloud.vertesia.io") ∧
    (∀ (site : Option String) (s : String),
      hasTok "store:".toList s.toList = false →
      hasTok "collection:".toList s.toList = false →
      transformStoreLinks site s = s) ∧
    transformStoreLinks none "see store:abc123 and collection:xyz-789" =
      "see https://cloud.vertesia.io/store/objects/abc123 and https://cloud.vertesia.io/store/collections/xyz-789" := by
  refine ⟨rfl, rfl, ?_, transformStoreLinks_of_no_tok, by decide⟩
  intro site h1 h2
  unfold uiDomain
  split
  · exact absurd rfl h1
  · exact absurd rfl h2
  · rfl

/-- Claim C4 witness: an unrecognized site falls back to the default
domain, and token-free text is returned unchanged. -/
theorem transformStoreLinks_behavior_witness :
    uiDomain (some "api.vertesia.io") = "cloud.vertesia.io" ∧
    transformStoreLinks (some "api.vertesia.io") "hello world" = "hello world" := by
  obtain ⟨-, -, h3, h4, -⟩ := transformStoreLinks_behavior
  exact ⟨h3 (some "api.vertesia.io") (by decide) (by decide),
    h4 (some "api.vertesia.io") "hello world" (by decide) (by decide)⟩

/-- Claim C9 counterexample: the rewriter is not idempotent.  On input
"store:store:x" the first pass produces ".../store/objects/store:x",
whose tail again matches the store pattern, so a second application
rewrites further. -/
theorem transformStoreLinks_not_idempotent_counterexample :
    transformStoreLinks none (transformStoreLinks none "store:store:x") ≠
      transformStoreLinks none "store:store:x" := by decide

/-- Claim C9 (amended): the rewriter is idempotent on every input whose
one-pass output no longer contains a store or collection token; in
general the output can match again (an id run equal to "store" followed
by a colon and more id characters), so idempotence fails. -/
theorem transformStoreLinks_idempotent_when_no_residual (site : Option String)
    (s : String)
    (h1 : hasTok "store:".toList (transformStoreLinks site s).toList = false)
    (h2 : hasTok "collection:".toList (transformStoreLinks site s).toList = false) :
    transformStoreLinks site (transformStoreLinks site s) =
      transformStoreLinks site s :=
  transformStoreLinks_of_no_tok site (transformStoreLinks site s) h1 h2

/-- Claim C9 witness: the amended idempotence applied to the
specification's example input. -/
theorem transformStoreLinks_idempotent_witness :
    transformStoreLinks none
        (transformStoreLinks none "see store:abc123 and collection:xyz-789") =
      transformStoreLinks none "see store:abc123 and collection:xyz-789" :=
  transformStoreLinks_idempotent_when_no_residual none
    "see store:abc123 and collection:xyz-789" (by decide) (by decide)

/-- Claim C5: the formatter prints the raw text with a trailing blank
line for Question, Idle and Error kinds, and otherwise rewrites links and
hands the result to the markdown renderer — for Complete, RequestInput,
Agent and any unrecognized kind alike. -/
theorem formatMessage_branches (site : Option String) (locale : Nat → String)
    (ty : MsgType) (msg : String) (ts : Nat) :
    (ty = MsgType.question ∨ ty = MsgType.idle ∨ ty = MsgType.error →
      formatMessage site locale ty msg ts =
        [OutEvent.header (locale ts) (messageLabel ty),
         OutEvent.rawText (msg ++ "\n")]) ∧
    (ty ≠ MsgType.question → ty ≠ MsgType.idle → ty ≠ MsgType.error →
      formatMessage site locale ty msg ts =
        [OutEvent.header (locale ts) (messageLabel ty),
         OutEvent.markdownText (transformStoreLinks site msg)]) := by
  constructor
  · intro h
    rcases h with h | h | h <;> subst h <;> simp [formatMessage]
  · intro h1 h2 h3
    simp [formatMessage, h1, h2, h3]

/-- Claim C5 witness: a Question message is printed verbatim with a blank
line; an Agent message goes through the link rewriter and the markdown
renderer. -/
theorem formatMessage_branches_witness :
    formatMessage none (fun _ => "ts") MsgType.question "hi" 0 =
      [OutEvent.header "ts" (messageLabel MsgType.question),
       OutEvent.rawText ("hi" ++ "\n")] ∧
    formatMessage none (fun _ => "ts") MsgType.agent "see store:a" 0 =
      [OutEvent.header "ts" (messageLabel MsgType.agent),
       OutEvent.markdownText (transformStoreLinks none "see store:a")] := by
  constructor
  · exact (formatMessage_branches none (fun _ => "ts") MsgType.question "hi" 0).1
      (Or.inl rfl)
  · exact (formatMessage_branches none (fun _ => "ts") MsgType.agent "see store:a" 0).2
      (by decide) (by decide) (by decide)

/-- Claim C6: the label mapping is total — Question maps to "User:",
Error to "Error:", Complete to "Complete:", Idle to "Idle:", and every
other kind (RequestInput, Agent, unrecognized) to the default "Agent:" —
and the formatter always emits the header line first, made of the
formatted local timestamp, " - ", and the label. -/
theorem messageLabel_total_mapping :
    messageLabel MsgType.question = ⟨Color.green, "User:"⟩ ∧
    messageLabel MsgType.error = ⟨Color.red, "Error:"⟩ ∧
    messageLabel MsgType.complete = ⟨Color.green, "Complete:"⟩ ∧
    messageLabel MsgType.idle = ⟨Color.yellow, "Idle:"⟩ ∧
    messageLabel MsgType.requestInput = ⟨Color.blue, "Agent:"⟩ ∧
    messageLabel MsgType.agent = ⟨Color.blue, "Agent:"⟩ ∧
    (∀ tag, messageLabel (MsgType.unknown tag) = ⟨Color.blue, "Agent:"⟩) ∧
    (∀ (site : Option String) (locale : Nat → String) (ty : MsgType)
      (msg : String) (ts : Nat),
      (formatMessage site locale ty msg ts).head? =
        some (OutEvent.header (locale ts) (messageLabel ty))) ∧
    (∀ (d : String) (l : Styled), headerText d l = d ++ " - " ++ l.text) :=
  ⟨rfl, rfl, rfl, rfl, rfl, rfl, fun _ => rfl, fun _ _ _ _ _ => rfl, fun _ _ => rfl⟩

/-- Claim C3: the streaming callback renders a delivered message through
the formatter exactly when its text is present and nonempty, and —
independently of rendering — ends the call with reason "input" for Idle
or RequestInput, with reason "done" for Complete, and not at all for any
other kind; when it ends the call, later items are not processed. -/
theorem callback_render_and_exit_behavior (site : Option String)
    (locale : Nat → String) (m : AgentMessage) (ms : List AgentMessage) :
    (∀ s, m.message = some s → s ≠ "" →
      (handleItem site locale m).1 =
        formatMessage site locale m.type s m.timestamp) ∧
    (m.message = none ∨ m.message = some "" → (handleItem site locale m).1 = []) ∧
    ((handleItem site locale m).2 = some "input" ↔
      m.type = MsgType.idle ∨ m.type = MsgType.requestInput) ∧
    ((handleItem site locale m).2 = some "done" ↔ m.type = MsgType.complete) ∧
    ((handleItem site locale m).2 = none ↔
      m.type ≠ MsgType.idle ∧ m.type ≠ MsgType.requestInput ∧
        m.type ≠ MsgType.complete) ∧
    (∀ r, (handleItem site locale m).2 = some r →
      runCallback site locale (m :: ms) = ((handleItem site locale m).1, some r)) := by
  obtain ⟨ty, msg, ts⟩ := m
  refine ⟨?_, ?_, ?_, ?_, ?_, ?_⟩
  · intro s hs hne
    subst hs
    simp [handleItem, msgTruthy, hne]
  · intro h
    rcases h with h | h <;> subst h <;> simp [handleItem, msgTruthy]
  · cases ty <;> simp [handleItem, exitReason]
  · cases ty <;> simp [handleItem, exitReason]
  · cases ty <;> simp [handleItem, exitReason]
  · intro r hr
    simp [runCallback, hr]

/-- Claim C3 witness: an Idle message with nonempty text is rendered and
ends the call with "input"; an Agent message without text is not
rendered. -/
theorem callback_render_and_exit_witness :
    (handleItem none (fun _ => "ts") ⟨MsgType.idle, some "waiting", 3⟩).1 =
      formatMessage none (fun _ => "ts") MsgType.idle "waiting" 3 ∧
    (handleItem none (fun _ => "ts") ⟨MsgType.idle, some "waiting", 3⟩).2 =
      some "input" ∧
    (handleItem none (fun _ => "ts") ⟨MsgType.agent, none, 3⟩).1 = [] := by
  obtain ⟨h1, -, h3, -, -, -⟩ := callback_render_and_exit_behavior none
    (fun _ => "ts") ⟨MsgType.idle, some "waiting", 3⟩ []
  obtain ⟨-, k2, -, -, -, -⟩ := callback_render_and_exit_behavior none
    (fun _ => "ts") ⟨MsgType.agent, none, 3⟩ []
  exact ⟨h1 "waiting" rfl (by decide), h3.mpr (Or.inl rfl), k2 (Or.inl rfl)⟩

/-- Claim C8 counterexample: the loop can also halt with neither a
terminal-kind message nor a rejection — a stream that delivers only an
Error-kind message and then ends with no distinguished reason makes the
driver print the completion notice and stop, refuting the "halts only on
Idle/RequestInput/Complete or a thrown error" clause. -/
theorem loop_halts_on_natural_end_counterexample :
    driverLoop none (fun _ => "") "wf" "run-1" 0
        [⟨⟨[⟨MsgType.error, some "boom", 1⟩], StreamTail.natural⟩, 5, []⟩] =
      ([DriverEvent.callStream "run-1" 0,
        DriverEvent.out (OutEvent.header "" ⟨Color.red, "Error:"⟩),
        DriverEvent.out (OutEvent.rawText "boom\n"),
        DriverEvent.info "Conversation completed"], 5) ∧
    exitReason MsgType.error = none := by
  exact ⟨rfl, rfl⟩

/-- Claim C8 (amended): an Error-kind message is rendered through the
same formatter as every other message, never ends the streaming call and
never by itself terminates the loop; the loop leaves streaming only on an
Idle/RequestInput/Complete message, on a rejected streaming call, or on
the stream ending naturally with no distinguished reason. -/
theorem error_message_display_only_amended (site : Option String)
    (locale : Nat → String) (wf rid : String) (since : Nat)
    (m : AgentMessage) (ms : List AgentMessage) (it : IterScript)
    (rest : List IterScript) (outs : List OutEvent)
    (hm : m.type = MsgType.error) :
    exitReason m.type = none ∧
    runCallback site locale (m :: ms) =
      ((handleItem site locale m).1 ++ (runCallback site locale ms).1,
        (runCallback site locale ms).2) ∧
    (msgTruthy m.message = true →
      (handleItem site locale m).1 =
        formatMessage site locale m.type (m.message.getD "") m.timestamp) ∧
    (∀ t, (exitReason t).isSome = true ↔
      (t = MsgType.idle ∨ t = MsgType.requestInput ∨ t = MsgType.complete)) ∧
    (execCall site locale it.call = (outs, CallResult.resolved none) →
      driverLoop site locale wf rid since (it :: rest) =
        (DriverEvent.callStream rid since :: outs.map DriverEvent.out ++
          [DriverEvent.info "Conversation completed"], it.now)) := by
  refine ⟨?_, ?_, ?_, ?_, ?_⟩
  · rw [hm]
    rfl
  · have hex : (handleItem site locale m).2 = none := by
      simp [handleItem, hm, exitReason]
    simp [runCallback, hex]
  · intro ht
    simp [handleItem, ht]
  · intro t
    cases t <;> simp [exitReason]
  · intro hc
    exact driverLoop_resolved_noninput site locale wf rid since it rest outs none hc
      (by simp)

/-- Claim C8 witness: a truthy Error message is rendered and streaming
continues to the next item; a naturally ending call exits the loop with
the completion notice. -/
theorem error_message_display_only_witness :
    runCallback none (fun _ => "")
        [⟨MsgType.error, some "boom", 1⟩, ⟨MsgType.agent, some "hi", 2⟩] =
      ((handleItem none (fun _ => "") ⟨MsgType.error, some "boom", 1⟩).1 ++
        (runCallback none (fun _ => "") [⟨MsgType.agent, some "hi", 2⟩]).1,
       (runCallback none (fun _ => "") [⟨MsgType.agent, some "hi", 2⟩]).2) ∧
    (handleItem none (fun _ => "") ⟨MsgType.error, some "boom", 1⟩).1 =
      formatMessage none (fun _ => "") MsgType.error "boom" 1 ∧
    driverLoop none (fun _ => "") "wf" "run-1" 0
        [⟨⟨[], StreamTail.natural⟩, 5, []⟩] =
      ([DriverEvent.callStream "run-1" 0,
        DriverEvent.info "Conversation completed"], 5) := by
  obtain ⟨-, h2, h3, -, h5⟩ := error_message_display_only_amended none (fun _ => "")
    "wf" "run-1" 0 ⟨MsgType.error, some "boom", 1⟩ [⟨MsgType.agent, some "hi", 2⟩]
    ⟨⟨[], StreamTail.natural⟩, 5, []⟩ [] [] rfl
  refine ⟨h2, h3 (by decide), ?_⟩
  have := h5 rfl
  rw [this]
  rfl

/-- Claim C1 counterexample: a streaming call that rejects with an Error
leaves the process exit code at 0 (success), not non-zero — the inner
catch reports the error and returns from the function before the outer
catch's process.exitCode = 1 can ever run. -/
theorem streamError_exitCode_zero_counterexample :
    execCall none (fun _ => "") ⟨[], StreamTail.rejectError⟩ =
      ([], CallResult.rejectedError) ∧
    (startInteractiveConversation none (fun _ => "") "task" "MultipurposeAgent"
      true (StartResult.ok ⟨"wf", "run-1"⟩)
      [⟨⟨[], StreamTail.rejectError⟩, 5, []⟩]).2 = 0 := by
  exact ⟨rfl, rfl⟩

/-- Claim C1 (amended): if a streamMessages call rejects with an Error,
the driver reports the error and terminates at once — it never prompts
for input, never sends a signal, consumes no further scripted iteration —
and the process exit code is left unchanged at 0 (success), not set
non-zero. -/
theorem streamError_terminates_without_prompt_or_signal (site : Option String)
    (locale : Nat → String) (task agentType : String) (inter : Bool)
    (run : RunHandle) (since : Nat) (it : IterScript) (rest : List IterScript)
    (outs : List OutEvent)
    (h : execCall site locale it.call = (outs, CallResult.rejectedError)) :
    driverLoop site locale run.workflowId run.runId since (it :: rest) =
      (DriverEvent.callStream run.runId since :: outs.map DriverEvent.out ++
        [DriverEvent.errorReport "Error while streaming messages:"], since) ∧
    (∀ e ∈ (driverLoop site locale run.workflowId run.runId since (it :: rest)).1,
      isPromptOrSignal e = false) ∧
    (startInteractiveConversation site locale task agentType inter
      (StartResult.ok run) (it :: rest)).2 = 0 := by
  have heq := driverLoop_rejectedError site locale run.workflowId run.runId
    since it rest outs h
  refine ⟨heq, ?_, rfl⟩
  rw [heq]
  intro e he
  rcases List.mem_cons.mp he with rfl | he
  · rfl
  rcases List.mem_append.mp he with he | he
  · obtain ⟨a, -, rfl⟩ := List.mem_map.mp he
    rfl
  · rw [List.mem_singleton] at he
    subst he
    rfl

/-- Claim C1 witness: concrete Error-rejecting script — the trace stops
at the error report, and the exit code is 0. -/
theorem streamError_terminates_witness :
    driverLoop none (fun _ => "") "wf" "run-1" 0
        [⟨⟨[], StreamTail.rejectError⟩, 5, ["hello"]⟩] =
      ([DriverEvent.callStream "run-1" 0,
        DriverEvent.errorReport "Error while streaming messages:"], 0) ∧
    (startInteractiveConversation none (fun _ => "") "t" "A" true
      (StartResult.ok ⟨"wf", "run-1"⟩)
      [⟨⟨[], StreamTail.rejectError⟩, 5, ["hello"]⟩]).2 = 0 := by
  obtain ⟨h1, -, h3⟩ := streamError_terminates_without_prompt_or_signal none
    (fun _ => "") "t" "A" true ⟨"wf", "run-1"⟩ 0
    ⟨⟨[], StreamTail.rejectError⟩, 5, ["hello"]⟩ [] [] rfl
  exact ⟨h1, h3⟩

/-- Claim C2 counterexample: after a streamMessages call that rejects
with an Error, the cursor is not set to the call's clock reading — the
driver reports and returns with the cursor still at its previous value
(0 here, with the clock at 5). -/
theorem cursor_not_advanced_on_error_counterexample :
    driverLoop none (fun _ => "") "wf" "run-1" 0
        [⟨⟨[], StreamTail.rejectError⟩, 5, []⟩] =
      ([DriverEvent.callStream "run-1" 0,
        DriverEvent.errorReport "Error while streaming messages:"], 0) ∧
    (0 : Nat) ≠ 5 := by
  exact ⟨rfl, by decide⟩

/-- Claim C2 (amended): the cursor starts at 0; after every streaming
call the driver survives (a resolved call, or a rejection with a
non-Error value) the cursor is set to the clock reading taken right
after the call, before any prompt, signal or further call; a call that
rejects with an Error terminates the driver without updating the cursor;
consequently, for a non-decreasing clock, the cursor values passed to
successive streaming calls are non-decreasing, each assigned only after
the previous call returned. -/
theorem cursor_monotonicity_amended (site : Option String)
    (locale : Nat → String) (wf rid : String) (since : Nat) (it : IterScript)
    (rest script : List IterScript) (outs : List OutEvent) (r : Option String) :
    (sincesPassed (driverLoop site locale wf rid 0 (it :: rest)).1).head? =
      some 0 ∧
    (execCall site locale it.call = (outs, CallResult.rejectedOther) →
      (driverLoop site locale wf rid since (it :: rest)).2 = it.now) ∧
    (execCall site locale it.call = (outs, CallResult.resolved r) →
      r ≠ some "input" →
      (driverLoop site locale wf rid since (it :: rest)).2 = it.now) ∧
    (∀ pevs text,
      execCall site locale it.call = (outs, CallResult.resolved (some "input")) →
      promptLoop it.inputs = (pevs, some text) →
      driverLoop site locale wf rid since (it :: rest) =
        (DriverEvent.callStream rid since :: outs.map DriverEvent.out ++ pevs ++
          DriverEvent.signal wf rid "UserInput" text ::
            (driverLoop site locale wf rid it.now rest).1,
         (driverLoop site locale wf rid it.now rest).2)) ∧
    (execCall site locale it.call = (outs, CallResult.rejectedError) →
      (driverLoop site locale wf rid since (it :: rest)).2 = since) ∧
    (List.Chain' (· ≤ ·) (script.map IterScript.now) →
      List.Chain' (· ≤ ·) (sincesPassed (driverLoop site locale wf rid 0 script).1)) := by
  refine ⟨sincesPassed_driverLoop_head site locale wf rid 0 it rest, ?_, ?_, ?_, ?_, ?_⟩
  · intro h
    rw [driverLoop_rejectedOther site locale wf rid since it rest outs h]
  · intro h hr
    rw [driverLoop_resolved_noninput site locale wf rid since it rest outs r h hr]
  · intro pevs text hc hp
    exact driverLoop_input site locale wf rid since it rest outs pevs text hc hp
  · intro h
    rw [driverLoop_rejectedError site locale wf rid since it rest outs h]
  · intro hchain
    exact sincesPassed_driverLoop_chain site locale wf rid script 0 hchain
      (fun it0 _ => Nat.zero_le it0.now)

/-- Claim C2 witness: on a concrete two-call script with a non-decreasing
clock, the first call gets cursor 0, the recursion passes the clock
reading to the second call, and the cursor sequence is non-decreasing;
rejected-other and resolved-done calls set the cursor to the clock, and
an Error rejection leaves it unchanged. -/
theorem cursor_monotonicity_witness :
    (sincesPassed (driverLoop none (fun _ => "") "wf" "r" 0
      [⟨⟨[], StreamTail.rejectNonError⟩, 5, []⟩]).1).head? = some 0 ∧
    (driverLoop none (fun _ => "") "wf" "r" 0
      [⟨⟨[], StreamTail.rejectNonError⟩, 5, []⟩]).2 = 5 ∧
    (driverLoop none (fun _ => "") "wf" "r" 0
      [⟨⟨[⟨MsgType.complete, none, 1⟩], StreamTail.natural⟩, 6, []⟩]).2 = 6 ∧
    driverLoop none (fun _ => "") "wf" "r" 0
      [⟨⟨[⟨MsgType.requestInput, none, 1⟩], StreamTail.natural⟩, 7, ["ok"]⟩] =
      ([DriverEvent.callStream "r" 0,
        DriverEvent.promptAccepted "ok",
        DriverEvent.signal "wf" "r" "UserInput" "ok"], 7) ∧
    (driverLoop none (fun _ => "") "wf" "r" 0
      [⟨⟨[], StreamTail.rejectError⟩, 9, []⟩]).2 = 0 ∧
    List.Chain' (· ≤ ·) (sincesPassed (driverLoop none (fun _ => "") "wf" "r" 0
      [⟨⟨[⟨MsgType.requestInput, none, 1⟩], StreamTail.natural⟩, 7, ["ok"]⟩,
       ⟨⟨[⟨MsgType.complete, none, 8⟩], StreamTail.natural⟩, 9, []⟩]).1) := by
  obtain ⟨a1, a2, -, -, -, -⟩ := cursor_monotonicity_amended none (fun _ => "")
    "wf" "r" 0 ⟨⟨[], StreamTail.rejectNonError⟩, 5, []⟩ [] [] [] none
  obtain ⟨-, -, b3, -, -, -⟩ := cursor_monotonicity_amended none (fun _ => "")
    "wf" "r" 0 ⟨⟨[⟨MsgType.complete, none, 1⟩], StreamTail.natural⟩, 6, []⟩ [] []
    [] (some "done")
  obtain ⟨-, -, -, c4, -, -⟩ := cursor_monotonicity_amended none (fun _ => "")
    "wf" "r" 0 ⟨⟨[⟨MsgType.requestInput, none, 1⟩], StreamTail.natural⟩, 7, ["ok"]⟩
    [] [] [] none
  obtain ⟨-, -, -, -, d5, -⟩ := cursor_monotonicity_amended none (fun _ => "")
    "wf" "r" 0 ⟨⟨[], StreamTail.rejectError⟩, 9, []⟩ [] [] [] none
  obtain ⟨-, -, -, -, -, e6⟩ := cursor_monotonicity_amended none (fun _ => "")
    "wf" "r" 0 ⟨⟨[], StreamTail.rejectError⟩, 9, []⟩ []
    [⟨⟨[⟨MsgType.requestInput, none, 1⟩], StreamTail.natural⟩, 7, ["ok"]⟩,
     ⟨⟨[⟨MsgType.complete, none, 8⟩], StreamTail.natural⟩, 9, []⟩] [] none
  refine ⟨a1, a2 rfl, b3 rfl (by decide), ?_, d5 rfl,
    e6 (by simp [List.chain'_cons])⟩
  have := c4 [DriverEvent.promptAccepted "ok"] "ok" rfl rfl
  rw [this]
  rfl

/-- Claim C7: when a streaming call ends with reason "input", the driver
prompts, rejecting and re-prompting whitespace-only lines, sends exactly
one signal named "UserInput" addressed by (workflowId, runId) whose
payload message is the trimmed accepted line, and returns to streaming
(the trace continues with the next streaming call); no other event of
the iteration is a signal. -/
theorem input_prompt_and_signal (site : Option String) (locale : Nat → String)
    (wf rid : String) (since : Nat) (it : IterScript) (rest : List IterScript)
    (outs : List OutEvent) (pevs : List DriverEvent) (text : String)
    (hc : execCall site locale it.call = (outs, CallResult.resolved (some "input")))
    (hp : promptLoop it.inputs = (pevs, some text)) :
    driverLoop site locale wf rid since (it :: rest) =
      (DriverEvent.callStream rid since :: outs.map DriverEvent.out ++ pevs ++
        DriverEvent.signal wf rid "UserInput" text ::
          (driverLoop site locale wf rid it.now rest).1,
       (driverLoop site locale wf rid it.now rest).2) ∧
    text ≠ "" ∧
    (∃ raw ∈ it.inputs, trimChars raw = text) ∧
    (∀ e ∈ pevs, e = DriverEvent.promptAccepted text ∨
      ∃ raw, e = DriverEvent.promptRejected raw ∧ trimChars raw = "") ∧
    (∀ e ∈ DriverEvent.callStream rid since :: outs.map DriverEvent.out ++ pevs,
      isSignalEvent e = false) := by
  obtain ⟨t1, t2, t3⟩ := promptLoop_accepted it.inputs pevs text hp
  refine ⟨driverLoop_input site locale wf rid since it rest outs pevs text hc hp,
    t1, t2, t3, ?_⟩
  intro e he
  rcases List.mem_cons.mp he with rfl | he
  · rfl
  rcases List.mem_append.mp he with he | he
  · obtain ⟨a, -, rfl⟩ := List.mem_map.mp he
    rfl
  · rcases t3 e he with rfl | ⟨raw, rfl, -⟩
    · rfl
    · rfl

/-- Claim C7 witness: a RequestInput message ends the call with "input";
the empty first line is rejected, " ok " is accepted as "ok", and one
UserInput signal carrying "ok" is sent before streaming resumes. -/
theorem input_prompt_and_signal_witness :
    driverLoop none (fun _ => "") "wf" "run-1" 0
        [⟨⟨[⟨MsgType.requestInput, none, 0⟩], StreamTail.natural⟩, 7, ["", " ok "]⟩] =
      ([DriverEvent.callStream "run-1" 0,
        DriverEvent.promptRejected "",
        DriverEvent.promptAccepted "ok",
        DriverEvent.signal "wf" "run-1" "UserInput" "ok"], 7) ∧
    ("ok" : String) ≠ "" := by
  obtain ⟨h1, h2, -, -, -⟩ := input_prompt_and_signal none (fun _ => "")
    "wf" "run-1" 0
    ⟨⟨[⟨MsgType.requestInput, none, 0⟩], StreamTail.natural⟩, 7, ["", " ok "]⟩ []
    [] [DriverEvent.promptRejected "", DriverEvent.promptAccepted "ok"] "ok"
    rfl rfl
  refine ⟨?_, h2⟩
  rw [h1]
  rfl

/-- Claim C10: a streamMessages call rejecting with a non-Error value is
swallowed silently — no error report, no prompt, no signal; the cursor is
advanced to the clock reading, the loop exits, the completion notice is
printed, and the process exit code stays 0 (success). -/
theorem nonError_rejection_completes_quietly (site : Option String)
    (locale : Nat → String) (task agentType : String) (inter : Bool)
    (run : RunHandle) (wf rid : String) (since : Nat) (it : IterScript)
    (rest : List IterScript) (outs : List OutEvent)
    (h : execCall site locale it.call = (outs, CallResult.rejectedOther)) :
    driverLoop site locale wf rid since (it :: rest) =
      (DriverEvent.callStream rid since :: outs.map DriverEvent.out ++
        [DriverEvent.info "Conversation completed"], it.now) ∧
    (∀ e ∈ (driverLoop site locale wf rid since (it :: rest)).1,
      isErrorReport e = false ∧ isPromptOrSignal e = false) ∧
    (∀ script : List IterScript,
      (startInteractiveConversation site locale task agentType inter
        (StartResult.ok run) script).2 = 0) := by
  have heq := driverLoop_rejectedOther site locale wf rid since it rest outs h
  refine ⟨heq, ?_, fun _ => rfl⟩
  rw [heq]
  intro e he
  rcases List.mem_cons.mp he with rfl | he
  · exact ⟨rfl, rfl⟩
  rcases List.mem_append.mp he with he | he
  · obtain ⟨a, -, rfl⟩ := List.mem_map.mp he
    exact ⟨rfl, rfl⟩
  · rw [List.mem_singleton] at he
    subst he
    exact ⟨rfl, rfl⟩

/-- Claim C10 witness: a concrete non-Error rejection — completion notice
printed, cursor advanced to 5, exit code 0. -/
theorem nonError_rejection_witness :
    driverLoop none (fun _ => "") "wf" "run-1" 0
        [⟨⟨[], StreamTail.rejectNonError⟩, 5, []⟩] =
      ([DriverEvent.callStream "run-1" 0,
        DriverEvent.info "Conversation completed"], 5) ∧
    (startInteractiveConversation none (fun _ => "") "t" "A" false
      (StartResult.ok ⟨"wf", "run-1"⟩)
      [⟨⟨[], StreamTail.rejectNonError⟩, 5, []⟩]).2 = 0 := by
  obtain ⟨h1, -, h3⟩ := nonError_rejection_completes_quietly none (fun _ => "")
    "t" "A" false ⟨"wf", "run-1"⟩ "wf" "run-1" 0
    ⟨⟨[], StreamTail.rejectNonError⟩, 5, []⟩ [] [] rfl
  exact ⟨h1, h3 [⟨⟨[], StreamTail.rejectNonError⟩, 5, []⟩]⟩

end VertesiaCli
